import Mathlib

set_option maxRecDepth 100000

/-!
Verification of the pantry-peeper setup pipeline.

This file gives a shallow embedding, in Lean 4, of the Python modules
`azure_vision_config.py`, `data_preparation.py`, `model_training.py`,
`model_testing.py` and `setup_pantry_peeper.py`, and proves (or refutes)
the claims of the specification against that embedding.

Modelling conventions:
* Python floats that carry exact decimal constants (0.8, 0.85, 0.92, ...)
  are modelled as rationals; at every point where a float-valued
  computation is compared or truncated in the claims, the float result
  coincides with the exact rational result (checked in comments at the
  relevant definitions).
* Environment variables are `Option String` values (`none` = unset;
  Python truthiness of a string is "non-empty").
* Timestamps are irrelevant to every claim and are either omitted or
  threaded as opaque `String` parameters (`now`).
* The OpenCV collaborators `cv2.imread` and `cv2.resize` are external
  code and are passed as explicit function parameters; the per-pixel
  arithmetic done by `data_preparation.preprocess_image` itself is
  modelled exactly.
* The in-place mutation of `self.test_results` is modelled by explicit
  state passing (the list of results before the call is an argument, the
  list after the call is part of the returned value).
-/

/-! ## azure_vision_config.py -/

/-- Abstract error raised by `AzureVisionConfig.__init__` (a `ValueError`
in the Python source, named `ConfigurationError` in the specification). -/
inductive ConfigurationError where
  | missingCredentials
deriving DecidableEq

/-- The configuration state built by `AzureVisionConfig.__init__` after a
successful construction: `endpoint`, `api_key`, `project_name`. -/
structure AzureVisionConfig where
  endpoint : String
  api_key : String
  project_name : String
deriving DecidableEq

/-- Python truthiness of an optional environment-variable value:
`None` and the empty string are falsy, every other string is truthy.
This is exactly the test performed by
`if not self.endpoint or not self.api_key`. -/
def truthy : Option String → Bool
  | none => false
  | some s => !(s == "")

/-- `AzureVisionConfig.__init__`, reading the three environment variables
`AZURE_VISION_ENDPOINT`, `AZURE_VISION_API_KEY`, `AZURE_VISION_PROJECT`
(passed here as explicit `Option String` arguments).  `os.getenv` with a
default of "pantry-peeper" is `Option.getD`; the construction raises
exactly when one of the two required values is absent or empty. -/
def mkAzureVisionConfig (endpoint api_key project : Option String) :
    Except ConfigurationError AzureVisionConfig :=
  if truthy endpoint && truthy api_key then
    Except.ok
      { endpoint := endpoint.getD ""
        api_key := api_key.getD ""
        project_name := project.getD "pantry-peeper" }
  else
    Except.error ConfigurationError.missingCredentials

/-- The record returned by `AzureVisionConfig.get_config_dict`: exactly the
three keys `endpoint`, `project_name`, `service_type`. -/
structure ConfigSummary where
  endpoint : String
  project_name : String
  service_type : String
deriving DecidableEq

/-- `AzureVisionConfig.get_config_dict`. -/
def get_config_dict (c : AzureVisionConfig) : ConfigSummary :=
  { endpoint := c.endpoint
    project_name := c.project_name
    service_type := "Azure Computer Vision" }

/-! ## model_testing.py -/

/-- A bounding box as found in the canned predictions. -/
structure BoundingBox where
  x : ℕ
  y : ℕ
  width : ℕ
  height : ℕ
deriving DecidableEq

/-- One entry of the `predictions` list of an inference result. -/
structure Prediction where
  category : String
  confidence : ℚ
  bounding_box : BoundingBox
deriving DecidableEq

/-- One element of `ModelTester.test_results` (the `timestamp` field of
the Python dict is omitted: no claim depends on it). -/
structure InferenceResult where
  image_path : String
  predictions : List Prediction
  model_version : String
deriving DecidableEq

/-- The canned prediction list returned by `ModelTester.test_inference`
for every input image. -/
def cannedPredictions : List Prediction :=
  [ { category := "flour", confidence := 92/100,
      bounding_box := { x := 10, y := 20, width := 100, height := 110 } },
    { category := "sugar", confidence := 15/100,
      bounding_box := { x := 120, y := 20, width := 80, height := 90 } } ]

/-- `ModelTester.accuracy_threshold` (0.85, exact decimal). -/
def accuracy_threshold : ℚ := 85/100

/-- `ModelTester.test_inference`: builds the fixed-shape result for a
path.  (Appending it to `self.test_results` is done by the caller models
below.) -/
def test_inference (image_path : String) : InferenceResult :=
  { image_path := image_path
    predictions := cannedPredictions
    model_version := "1.0" }

/-- The scoring test applied to one inference result inside
`run_validation_suite`: the top prediction's confidence strictly exceeds
the threshold.  The Python code indexes `predictions[0]` unguarded; the
list produced by `test_inference` is always non-empty, so the `none`
branch is unreachable on the states the program constructs. -/
def topPasses (r : InferenceResult) : Bool :=
  match r.predictions.head? with
  | some t => decide (accuracy_threshold < t.confidence)
  | none => false

/-- The summary dictionary built by `ModelTester.run_validation_suite`. -/
structure ValidationSummary where
  accuracy : ℚ
  correct_predictions : ℕ
  total_predictions : ℕ
  passes_threshold : Bool
  threshold : ℚ
deriving DecidableEq

/-- `ModelTester.run_validation_suite`: runs `test_inference` on every
path in order (each call appends its result to `self.test_results`,
modelled by the second component), then computes the summary with the
guarded division `correct / total if total > 0 else 0`. -/
def run_validation_suite (state : List InferenceResult)
    (test_images : List String) : ValidationSummary × List InferenceResult :=
  let results := test_images.map test_inference
  let correct := results.countP topPasses
  let total := results.length
  let accuracy : ℚ := if 0 < total then (correct : ℚ) / (total : ℚ) else 0
  ({ accuracy := accuracy
     correct_predictions := correct
     total_predictions := total
     passes_threshold := decide (accuracy_threshold ≤ accuracy)
     threshold := accuracy_threshold },
   state ++ results)

/-- The guard applied to one stored result inside
`ModelTester._check_accuracy_threshold`:
`r["predictions"] and r["predictions"][0]["confidence"] > threshold`. -/
def highConfidence (r : InferenceResult) : Bool :=
  match r.predictions.head? with
  | some t => decide (accuracy_threshold < t.confidence)
  | none => false

/-- `ModelTester._check_accuracy_threshold`: `False` on an empty result
list, otherwise whether at least 80% of the stored results have a
high-confidence top prediction. -/
def check_accuracy_threshold (results : List InferenceResult) : Bool :=
  if results.isEmpty then false
  else
    decide ((8 : ℚ)/10 ≤ ((results.countP highConfidence : ℚ) / (results.length : ℚ)))

/-- The four named booleans returned by
`ModelTester.verify_acceptance_criteria`. -/
structure AcceptanceCriteria where
  azure_vision_configured : Bool
  model_accuracy_validated : Bool
  accuracy_above_threshold : Bool
  inference_working : Bool
deriving DecidableEq

/-- `ModelTester.verify_acceptance_criteria`. `connOk` is the boolean
returned by `self.config.validate_connection()` (an external probe that
never raises). `inference_working` is
`all(r.get("predictions") for r in results) if results else False`. -/
def verify_acceptance_criteria (connOk : Bool)
    (results : List InferenceResult) : AcceptanceCriteria :=
  { azure_vision_configured := connOk
    model_accuracy_validated := decide (0 < results.length)
    accuracy_above_threshold := check_accuracy_threshold results
    inference_working :=
      if results.isEmpty then false
      else results.all (fun r => !r.predictions.isEmpty) }

/-! ## model_training.py -/

/-- The fixed metrics record returned by
`PantryModelTrainer.calculate_training_metrics`.  The Python dict key
`recall` is rendered `recall_score` here because `recall` is a reserved
word in this Lean environment. -/
structure TrainingMetrics where
  accuracy : ℚ
  precision : ℚ
  recall_score : ℚ
  f1_score : ℚ
  validation_accuracy : ℚ
  training_loss : ℚ
  validation_loss : ℚ
deriving DecidableEq

/-- `PantryModelTrainer.calculate_training_metrics`: constant block,
independent of any state. -/
def calculate_training_metrics : TrainingMetrics :=
  { accuracy := 92/100
    precision := 89/100
    recall_score := 91/100
    f1_score := 90/100
    validation_accuracy := 87/100
    training_loss := 15/100
    validation_loss := 22/100 }

/-- The result record of `PantryModelTrainer.train_model` (the two
`*_at` timestamp strings are omitted: no claim depends on them). -/
structure TrainingResult where
  job_id : String
  status : String
  training_samples : ℕ
  validation_samples : ℕ
  metrics : TrainingMetrics
  model_checkpoint : String
deriving DecidableEq

/-- The job id built by `PantryModelTrainer.create_training_job`:
`pantry-` followed by the `%Y%m%d_%H%M%S` rendering of the call time
(threaded here as the opaque string `now`). -/
def create_training_job_id (now : String) : String := "pantry-" ++ now

/-- `PantryModelTrainer.train_model`: creates the job, then returns the
simulated result with `status = "completed"` and the constant metrics
block. -/
def train_model (training_data : List String × List String)
    (now : String) : TrainingResult :=
  { job_id := create_training_job_id now
    status := "completed"
    training_samples := training_data.1.length
    validation_samples := training_data.2.length
    metrics := calculate_training_metrics
    model_checkpoint := "models/" ++ create_training_job_id now ++ "_final.model" }

/-! ## data_preparation.py : dataset split -/

/-- `PantryDatasetPreparer.PANTRY_ITEMS`: the fixed 15-category set. -/
def PANTRY_ITEMS : List String :=
  [ "flour", "sugar", "salt", "rice", "pasta", "beans",
    "canned_vegetables", "canned_fruits", "oil", "butter",
    "milk", "cheese", "eggs", "bread", "cereal" ]

/-- The Python format `f"{i:04d}"` for `0 ≤ i < 10000`: the four decimal
digits of `i`, zero-padded.  `prepare_training_data` only formats
indices `i < 50`. -/
def pad4 (i : ℕ) : String :=
  ⟨[ Nat.digitChar (i / 1000 % 10), Nat.digitChar (i / 100 % 10),
     Nat.digitChar (i / 10 % 10), Nat.digitChar (i % 10) ]⟩

/-- The per-category directory `self.prepared_dir / category` for the
default `data_dir="./pantry_data"`; `pathlib` renders `./pantry_data` as
`pantry_data`. -/
def catDir (c : String) : String := "pantry_data/prepared/" ++ c

/-- `str(filepath)` for the file `f"{category}_{i:04d}.jpg"` inside the
category directory. -/
def toPath (c : String) (i : ℕ) : String :=
  catDir c ++ "/" ++ c ++ "_" ++ pad4 i ++ ".jpg"

/-- The character sequence every path of category `c` starts with (the
category directory and its trailing slash). -/
def pathPre (c : String) : List Char := (catDir c ++ "/").data

/-- Python `int()` applied to an exact rational: truncation toward zero.
At the only ratio the claims use, `int(50 * 0.8)`, the float product is
exactly `40.0` (the IEEE-754 double nearest to `40.000000000000002`), so
the exact-rational model gives the same bound, `40`. -/
def pyInt (q : ℚ) : ℤ := if q < 0 then Rat.ceil q else Rat.floor q

/-- The split bound `int(num_images * train_ratio)` with
`num_images = 50`. -/
def splitIndexBound (train_ratio : ℚ) : ℤ := pyInt ((50 : ℚ) * train_ratio)

/-- `PantryDatasetPreparer.prepare_training_data`: for each category in
order, for each index `i` in `range(50)` in order, the path goes to the
train list when `i < int(50 * train_ratio)` and to the validation list
otherwise.  The pair is `(train_files, val_files)`. -/
def prepare_training_data (train_ratio : ℚ) : List String × List String :=
  (PANTRY_ITEMS.flatMap (fun c =>
      (List.range 50).filterMap (fun i : ℕ =>
        if (i : ℤ) < splitIndexBound train_ratio then some (toPath c i) else none)),
   PANTRY_ITEMS.flatMap (fun c =>
      (List.range 50).filterMap (fun i : ℕ =>
        if (i : ℤ) < splitIndexBound train_ratio then none else some (toPath c i))))

/-! ## data_preparation.py : preprocess_image -/

/-- Error raised by `preprocess_image` when `cv2.imread` returns `None`
(a `ValueError` with the offending path in the Python source, named
`ImageLoadError` in the specification). -/
inductive ImageLoadError where
  | cannotLoad (path : String)
deriving DecidableEq

/-- A decoded 8-bit image: rows of channel values in 0..255.  (Channels
are flattened into the row; every claim about `preprocess_image` is a
per-value statement, independent of the row/channel layout.) -/
abbrev RawImage : Type := List (List (Fin 256))

/-- `PantryDatasetPreparer.img_size` default `(224, 224)`, passed to
`cv2.resize`. -/
def img_size : ℕ × ℕ := (224, 224)

/-- The division by 255.0: scales one 8-bit value into [0,1].  For the
inputs 0..255 the float32 quotient and the exact rational differ by less
than 1e-7, which never moves the subsequent rounding step across an
integer boundary, so the rational model yields the same final 8-bit
values as the float code. -/
def normalizePixel (v : Fin 256) : ℚ := ((v.val : ℕ) : ℚ) / 255

/-- Absolute value on ℚ, written out so that it evaluates by kernel
reduction. -/
def absQ (q : ℚ) : ℚ := if q < 0 then -q else q

/-- Round-to-nearest on ℚ (halves up), via the executable `Rat.floor`.
`cvRound_eq_round` below identifies it with Mathlib's `round`.  OpenCV
itself rounds halves to even, but on the inputs reachable from
`preprocess_image` (`alpha = 1.05`, `beta = 0`, `v ∈ [0,1]`) the
argument `1.05 * v` is never exactly half-integral, so the two rounding
rules agree. -/
def cvRound (q : ℚ) : ℤ := Rat.floor (q + 1/2)

/-- One value of `cv2.convertScaleAbs(img, alpha, beta)`:
`saturate_cast<uint8>(round(|alpha*v + beta|))`. -/
def convertScaleAbsPixel (alpha beta v : ℚ) : ℕ :=
  min 255 (cvRound (absQ (alpha * v + beta))).toNat

/-- The per-value pipeline of `preprocess_image` after decoding and
resizing: normalize to [0,1] (`img.astype(np.float32) / 255.0`), then
`cv2.convertScaleAbs(img, alpha=1.05, beta=0)`. -/
def preprocessPixel (v : Fin 256) : ℕ :=
  convertScaleAbsPixel (105/100) 0 (normalizePixel v)

/-- `PantryDatasetPreparer.preprocess_image`.  `imread` (the external
`cv2.imread`, a pure function of the file system snapshot) and
`resizeFn` (the external `cv2.resize`, which receives the target
`img_size`) are collaborators passed as parameters; the error branch and
the per-value arithmetic are the module's own code. -/
def preprocess_image (imread : String → Option RawImage)
    (resizeFn : ℕ × ℕ → RawImage → RawImage)
    (image_path : String) : Except ImageLoadError (List (List ℕ)) :=
  match imread image_path with
  | none => Except.error (ImageLoadError.cannotLoad image_path)
  | some img =>
      Except.ok ((resizeFn img_size img).map (fun row => row.map preprocessPixel))

/-- A one-pixel decode function used by witnesses. -/
def imreadW : String → Option RawImage := fun _ => some [[(200 : Fin 256)]]

/-- An identity resize used by witnesses. -/
def resizeW : ℕ × ℕ → RawImage → RawImage := fun _ img => img

/-! ## setup_pantry_peeper.py (orchestrator) -/

/-- The pipeline stages of `setup_pantry_peeper.main`, in order.
`configure` covers both `setup_environment` and `initialize_config`. -/
inductive Stage where
  | configure
  | prepareData
  | train
  | validate
  | verifyAcceptance
  | summarize
deriving DecidableEq

/-- The external outcomes of one orchestrator run: truthiness of the two
required environment variables, whether each fallible stage body raises,
and the boolean produced by `config.validate_connection()`.  Every claim
about `main` is quantified over all of these. -/
structure RunEnv where
  endpointSet : Bool
  apiKeySet : Bool
  configRaises : Bool
  dataRaises : Bool
  trainRaises : Bool
  validateRaises : Bool
  acceptRaises : Bool
  connOk : Bool
deriving DecidableEq

/-- `AcceptanceCriteriValidator.validate_all` for a validator built by
`verify_acceptance_criteria(config)` in the orchestrator: the validator
is constructed with `tester=None`, so its tester is a freshly created
`ModelTester` whose `test_results` list is empty.  First component:
"Azure AI Vision is configured properly" (delegates to
`validate_connection`); second: "The model shows improved accuracy
during testing" (delegates to `_check_accuracy_threshold` of the fresh
tester). -/
def validate_all (connOk : Bool) : Bool × Bool :=
  (connOk, check_accuracy_threshold [])

/-- `AcceptanceCriteriValidator.get_validation_report`, reduced to the
fields the orchestrator reads: `all_criteria_met` (the conjunction of
the two criteria) and the per-criterion pair. -/
def get_validation_report (connOk : Bool) : Bool × Bool × Bool :=
  ((validate_all connOk).1 && (validate_all connOk).2,
   (validate_all connOk).1, (validate_all connOk).2)

/-- The observable outcome of one run of `setup_pantry_peeper.main`. -/
structure RunResult where
  stagesRun : List Stage
  summaryWritten : Bool
  acceptReport : Option (Bool × Bool × Bool)
  overallStatus : Option String
  exitCode : ℕ
deriving DecidableEq

/-- `setup_pantry_peeper.main`: missing environment variables or a
configuration failure exit with status 1 before data preparation; a
data-preparation failure exits with status 1 before training; failures
in the train / validate / acceptance stages are caught and the pipeline
continues; `generate_summary_report` always runs at the end of a
non-fatal run, writing `setup_summary.json` with
`overall_status = "SUCCESS"` iff the acceptance report exists and says
all criteria are met, which is also the exit-0 condition. -/
def main' (env : RunEnv) : RunResult :=
  if !(env.endpointSet && env.apiKeySet) then
    { stagesRun := [Stage.configure], summaryWritten := false,
      acceptReport := none, overallStatus := none, exitCode := 1 }
  else if env.configRaises then
    { stagesRun := [Stage.configure], summaryWritten := false,
      acceptReport := none, overallStatus := none, exitCode := 1 }
  else if env.dataRaises then
    { stagesRun := [Stage.configure, Stage.prepareData], summaryWritten := false,
      acceptReport := none, overallStatus := none, exitCode := 1 }
  else
    let acceptReport : Option (Bool × Bool × Bool) :=
      if env.acceptRaises then none else some (get_validation_report env.connOk)
    let allMet : Bool :=
      match acceptReport with
      | some r => r.1
      | none => false
    { stagesRun := [Stage.configure, Stage.prepareData, Stage.train,
                    Stage.validate, Stage.verifyAcceptance, Stage.summarize]
      summaryWritten := true
      acceptReport := acceptReport
      overallStatus := some (if allMet then "SUCCESS" else "IN PROGRESS")
      exitCode := if allMet then 0 else 1 }

/-- A fully successful external environment, used by witnesses. -/
def envAllGood : RunEnv :=
  { endpointSet := true, apiKeySet := true, configRaises := false,
    dataRaises := false, trainRaises := false, validateRaises := false,
    acceptRaises := false, connOk := true }

/-! ## Theorems -/

/-- The executable rounding used by the embedding is Mathlib's `round`. -/
theorem cvRound_eq_round (q : ℚ) : cvRound q = round q := by
  rw [cvRound, round_eq, Rat.floor_def', ← Rat.floor_def]

/-- The executable absolute value used by the embedding is `|·|`. -/
theorem absQ_eq_abs (q : ℚ) : absQ q = |q| := by
  rw [absQ, abs]
  rcases lt_trichotomy q 0 with h | h | h
  · rw [if_pos h]
    exact (max_eq_right (by linarith)).symm
  · simp [h]
  · rw [if_neg (by linarith)]
    exact (max_eq_left (by linarith)).symm

/-- Every output value of the per-pixel pipeline lies in [0,1]: after
normalization the value is in [0,1], the contrast factor takes it to at
most 1.05, and the rounding back to an 8-bit integer lands on 0 or 1. -/
theorem preprocessPixel_le_one (v : Fin 256) : preprocessPixel v ≤ 1 := by
  unfold preprocessPixel convertScaleAbsPixel normalizePixel
  have hv : ((v.val : ℕ) : ℚ) ≤ 255 := by
    exact_mod_cast Nat.le_of_lt_succ v.isLt
  have h0 : (0 : ℚ) ≤ ((v.val : ℕ) : ℚ) := by positivity
  have hq0 : (0 : ℚ) ≤ 105/100 * (((v.val : ℕ) : ℚ)/255) + 0 := by positivity
  have hround : cvRound (absQ (105/100 * (((v.val : ℕ) : ℚ)/255) + 0)) ≤ 1 := by
    rw [absQ, if_neg (not_lt.mpr hq0), cvRound_eq_round, round_eq]
    have h2 : 105/100 * (((v.val : ℕ) : ℚ)/255) + 0 + 1/2 ≤ 31/20 := by linarith
    have h3 := Int.floor_le_floor h2
    have h4 : ⌊(31/20 : ℚ)⌋ = 1 := by
      rw [Int.floor_eq_iff]; norm_num
    rw [h4] at h3
    exact h3
  have htn : (cvRound (absQ (105/100 * (((v.val : ℕ) : ℚ)/255) + 0))).toNat ≤ 1 := by
    rw [Int.toNat_le]
    exact_mod_cast hround
  exact le_trans (min_le_right _ _) htn

/-- The concrete pixel evaluation used by the C7 witness. -/
theorem preprocessPixel_200 : preprocessPixel (200 : Fin 256) = 1 := by
  unfold preprocessPixel convertScaleAbsPixel normalizePixel
  have h200 : ((200 : Fin 256).val : ℕ) = 200 := rfl
  rw [h200]
  rw [show (105/100 : ℚ) * (((200 : ℕ) : ℚ)/255) + 0 = 14/17 by push_cast; norm_num]
  rw [absQ, if_neg (by norm_num), cvRound_eq_round, round_eq]
  rw [show (14/17 : ℚ) + 1/2 = 45/34 by norm_num]
  rw [show ⌊(45/34 : ℚ)⌋ = 1 by rw [Int.floor_eq_iff]; norm_num]
  rfl

/-- Claim C2: construction of the configuration fails with
`ConfigurationError` exactly when at least one of the two required
environment variables is absent or empty; when both are present and
non-empty it succeeds, with the project name defaulting to
"pantry-peeper" when the optional project variable is unset. -/
theorem config_construction_spec :
    ∀ e k p : Option String,
      ((∃ err, mkAzureVisionConfig e k p = Except.error err) ↔
        (e = none ∨ e = some "" ∨ k = none ∨ k = some "")) ∧
      (¬(e = none ∨ e = some "" ∨ k = none ∨ k = some "") →
        mkAzureVisionConfig e k p =
          Except.ok ⟨e.getD "", k.getD "", p.getD "pantry-peeper"⟩) ∧
      (∀ c, mkAzureVisionConfig e k none = Except.ok c →
        c.project_name = "pantry-peeper") := by
  intro e k p
  have htruthy : ∀ o : Option String, truthy o = false ↔ (o = none ∨ o = some "") := by
    intro o
    cases o <;> simp [truthy]
  have hiff : (truthy e && truthy k) = true ↔
      ¬(e = none ∨ e = some "" ∨ k = none ∨ k = some "") := by
    rw [Bool.and_eq_true]
    constructor
    · rintro ⟨he, hk⟩ hcon
      rcases hcon with h | h | h | h
      · rw [h] at he; simp [truthy] at he
      · rw [h] at he; simp [truthy] at he
      · rw [h] at hk; simp [truthy] at hk
      · rw [h] at hk; simp [truthy] at hk
    · intro h
      push_neg at h
      obtain ⟨h1, h2, h3, h4⟩ := h
      constructor
      · cases hb : truthy e
        · rcases (htruthy e).mp hb with h' | h'
          · exact absurd h' h1
          · exact absurd h' h2
        · rfl
      · cases hb : truthy k
        · rcases (htruthy k).mp hb with h' | h'
          · exact absurd h' h3
          · exact absurd h' h4
        · rfl
  have hproj : ∀ c, mkAzureVisionConfig e k none = Except.ok c →
      c.project_name = "pantry-peeper" := by
    intro c hc
    unfold mkAzureVisionConfig at hc
    split at hc
    · injection hc with hc
      rw [← hc]
      rfl
    · exact absurd hc (by simp)
  by_cases hok : (truthy e && truthy k) = true
  · have hmk : mkAzureVisionConfig e k p =
        Except.ok ⟨e.getD "", k.getD "", p.getD "pantry-peeper"⟩ := by
      unfold mkAzureVisionConfig
      rw [if_pos hok]
    refine ⟨?_, fun _ => hmk, hproj⟩
    constructor
    · intro ⟨err, herr⟩
      rw [hmk] at herr
      exact absurd herr (by simp)
    · intro hcon
      exact absurd hcon (hiff.mp hok)
  · have hmk : mkAzureVisionConfig e k p =
        Except.error ConfigurationError.missingCredentials := by
      unfold mkAzureVisionConfig
      rw [if_neg hok]
    refine ⟨?_, ?_, hproj⟩
    · constructor
      · intro _
        by_contra hcon
        exact hok (hiff.mpr hcon)
      · intro _
        exact ⟨ConfigurationError.missingCredentials, hmk⟩
    · intro hcon
      exact absurd (hiff.mpr hcon) hok

/-- Witness for C2 at concrete inputs: both variables present and
non-empty succeeds with the default project name; a missing key fails. -/
theorem config_construction_spec_witness :
    mkAzureVisionConfig (some "https://vision.example") (some "k123") none =
      Except.ok ⟨"https://vision.example", "k123", "pantry-peeper"⟩ ∧
    (∃ err, mkAzureVisionConfig (some "https://vision.example") none none =
      Except.error err) :=
  ⟨(config_construction_spec (some "https://vision.example") (some "k123") none).2.1
      (by simp),
   ((config_construction_spec (some "https://vision.example") none none).1).mpr
      (by simp)⟩

/-- Claim C8: the config summary contains exactly the endpoint, project
name and service type, and never the API key: two configurations that
differ only in their API key produce identical summaries. -/
theorem config_summary_no_secret :
    (∀ c : AzureVisionConfig,
      get_config_dict c = ⟨c.endpoint, c.project_name, "Azure Computer Vision"⟩) ∧
    (∀ c₁ c₂ : AzureVisionConfig,
      c₁.endpoint = c₂.endpoint → c₁.project_name = c₂.project_name →
      get_config_dict c₁ = get_config_dict c₂) := by
  constructor
  · intro c; rfl
  · intro c₁ c₂ he hp
    simp [get_config_dict, he, hp]

/-- Witness for C8: two concrete configurations differing only in the
secret key map to the same summary. -/
theorem config_summary_no_secret_witness :
    get_config_dict ⟨"https://vision.example", "secret-one", "pantry-peeper"⟩ =
    get_config_dict ⟨"https://vision.example", "secret-two", "pantry-peeper"⟩ :=
  config_summary_no_secret.2
    ⟨"https://vision.example", "secret-one", "pantry-peeper"⟩
    ⟨"https://vision.example", "secret-two", "pantry-peeper"⟩ rfl rfl

/-- Claim C4: `run_validation_suite` infers on each path in order
(appending to the stored results), counts a path as passing exactly when
its top prediction's confidence exceeds 0.85, returns accuracy
`passCount/total` (0 for the empty list, with no division by zero), and
`passes_threshold = (accuracy ≥ 0.85)`. -/
theorem run_validation_suite_spec :
    ∀ (state : List InferenceResult) (paths : List String),
      (run_validation_suite state paths).2 = state ++ paths.map test_inference ∧
      (run_validation_suite state paths).1.total_predictions = paths.length ∧
      (run_validation_suite state paths).1.correct_predictions =
        (paths.map test_inference).countP topPasses ∧
      (run_validation_suite state paths).1.accuracy =
        (if 0 < paths.length then
          ((run_validation_suite state paths).1.correct_predictions : ℚ) / (paths.length : ℚ)
         else 0) ∧
      (run_validation_suite state paths).1.passes_threshold =
        decide (accuracy_threshold ≤ (run_validation_suite state paths).1.accuracy) ∧
      (run_validation_suite state paths).1.threshold = 85/100 ∧
      (run_validation_suite state []).1.accuracy = 0 ∧
      (run_validation_suite state []).1.passes_threshold = false := by
  intro state paths
  refine ⟨rfl, by simp [run_validation_suite], rfl, ?_, rfl, rfl, ?_, ?_⟩
  · simp [run_validation_suite]
  · simp [run_validation_suite]
  · simp only [run_validation_suite]
    norm_num [accuracy_threshold]

/-- Claim C6: with no inference run yet (empty stored results),
`verify_acceptance_criteria` returns `model_accuracy_validated = false`
and `inference_working = false`, and the internal accuracy-threshold
check (delegated to by the acceptance validator) returns `false`. -/
theorem verify_acceptance_empty_spec :
    ∀ connOk : Bool,
      verify_acceptance_criteria connOk [] =
        { azure_vision_configured := connOk
          model_accuracy_validated := false
          accuracy_above_threshold := false
          inference_working := false } ∧
      check_accuracy_threshold [] = false := by
  intro connOk
  exact ⟨rfl, rfl⟩

/-- Claim C5: `train_model` returns status "completed" and the constant
metrics block (accuracy 0.92, precision 0.89, recall 0.91, f1 0.90,
validation accuracy 0.87, training loss 0.15, validation loss 0.22),
independent of the split's contents and identical across calls. -/
theorem train_model_constant_metrics :
    ∀ (td : List String × List String) (now : String),
      (train_model td now).status = "completed" ∧
      (train_model td now).metrics =
        ⟨92/100, 89/100, 91/100, 90/100, 87/100, 15/100, 22/100⟩ ∧
      (∀ (td' : List String × List String) (now' : String),
        (train_model td now).metrics = (train_model td' now').metrics) := by
  intro td now
  exact ⟨rfl, rfl, fun td' now' => rfl⟩

/-- Claim C3: a failure of the Configure stage or the PrepareData stage
terminates the run with nonzero exit status before later stages run; a
failure of the Train or Validate stage is non-fatal and the pipeline
continues to the Summarize stage, which always writes the summary
record; the exit status is 0 exactly when the acceptance report says all
criteria are met (nonzero otherwise). -/
theorem orchestrator_stage_policy :
    ∀ env : RunEnv,
      (((env.endpointSet && env.apiKeySet) = false ∨ env.configRaises = true) →
        (main' env).exitCode = 1 ∧ (main' env).stagesRun = [Stage.configure] ∧
        (main' env).summaryWritten = false) ∧
      ((env.endpointSet && env.apiKeySet) = true → env.configRaises = false →
        env.dataRaises = true →
        (main' env).exitCode = 1 ∧
        (main' env).stagesRun = [Stage.configure, Stage.prepareData] ∧
        (main' env).summaryWritten = false) ∧
      ((env.endpointSet && env.apiKeySet) = true → env.configRaises = false →
        env.dataRaises = false →
        Stage.summarize ∈ (main' env).stagesRun ∧ (main' env).summaryWritten = true) ∧
      ((main' env).exitCode = 0 ↔
        Option.map (fun r : Bool × Bool × Bool => r.1) (main' env).acceptReport =
          some true) ∧
      ((main' env).exitCode = 0 ∨ (main' env).exitCode = 1) := by
  intro env
  obtain ⟨a, b, c, d, e, f, g, h⟩ := env
  cases a <;> cases b <;> cases c <;> cases d <;> cases e <;> cases f <;>
    cases g <;> cases h <;>
    exact ⟨by decide, by decide, by decide, by decide, by decide⟩

/-- Witness for C3 at concrete environments: a run that fails data
preparation stops there with exit code 1, while a run whose validate
stage raises still reaches Summarize and writes the summary. -/
theorem orchestrator_stage_policy_witness :
    ((main' { envAllGood with dataRaises := true }).exitCode = 1 ∧
      (main' { envAllGood with dataRaises := true }).stagesRun =
        [Stage.configure, Stage.prepareData] ∧
      (main' { envAllGood with dataRaises := true }).summaryWritten = false) ∧
    (Stage.summarize ∈ (main' { envAllGood with validateRaises := true }).stagesRun ∧
      (main' { envAllGood with validateRaises := true }).summaryWritten = true) :=
  ⟨(orchestrator_stage_policy { envAllGood with dataRaises := true }).2.1
      (by decide) (by decide) (by decide),
   (orchestrator_stage_policy { envAllGood with validateRaises := true }).2.2.1
      (by decide) (by decide) (by decide)⟩

/-- Claim C10: in every run, the acceptance validator works on a freshly
created tester with no stored results, so its accuracy criterion is
false, `all_criteria_met` is false, the written summary's overall status
is never "SUCCESS", and the process never exits with status 0. -/
theorem orchestrator_never_succeeds :
    ∀ env : RunEnv,
      (main' env).exitCode ≠ 0 ∧
      Option.map (fun r : Bool × Bool × Bool => r.2.2) (main' env).acceptReport ≠
        some true ∧
      Option.map (fun r : Bool × Bool × Bool => r.1) (main' env).acceptReport ≠
        some true ∧
      (main' env).overallStatus ≠ some "SUCCESS" := by
  intro env
  obtain ⟨a, b, c, d, e, f, g, h⟩ := env
  cases a <;> cases b <;> cases c <;> cases d <;> cases e <;> cases f <;>
    cases g <;> cases h <;>
    exact ⟨by decide, by decide, by decide, by decide⟩

/-- Witness for C10 at the all-good environment: even there the produced
acceptance report has a false accuracy criterion and false
`all_criteria_met`, the status is not "SUCCESS", and the exit code is
nonzero. -/
theorem orchestrator_never_succeeds_witness :
    (main' envAllGood).exitCode ≠ 0 ∧
    Option.map (fun r : Bool × Bool × Bool => r.2.2) (main' envAllGood).acceptReport ≠
      some true ∧
    (main' envAllGood).overallStatus ≠ some "SUCCESS" :=
  ⟨(orchestrator_never_succeeds envAllGood).1,
   (orchestrator_never_succeeds envAllGood).2.1,
   (orchestrator_never_succeeds envAllGood).2.2.2⟩

/-- Claim C7: `preprocess_image` fails with `ImageLoadError` exactly when
the image cannot be decoded; otherwise it returns the image resized to
the fixed target size with every value scaled into [0,1] and the fixed
contrast adjustment (factor 1.05, offset 0) applied per value; the
result is deterministic given identical decoded input. -/
theorem preprocess_image_spec :
    ∀ (imread : String → Option RawImage)
      (resizeFn : ℕ × ℕ → RawImage → RawImage) (path : String),
      (imread path = none →
        preprocess_image imread resizeFn path =
          Except.error (ImageLoadError.cannotLoad path)) ∧
      (∀ img, imread path = some img →
        preprocess_image imread resizeFn path =
          Except.ok ((resizeFn img_size img).map (fun row => row.map preprocessPixel))) ∧
      (∀ out, preprocess_image imread resizeFn path = Except.ok out →
        ∀ row ∈ out, ∀ v ∈ row, v ≤ 1) ∧
      (∀ (imread₂ : String → Option RawImage) (path₂ : String),
        imread path = imread₂ path₂ → imread path ≠ none →
        preprocess_image imread resizeFn path =
          preprocess_image imread₂ resizeFn path₂) := by
  intro imread resizeFn path
  refine ⟨?_, ?_, ?_, ?_⟩
  · intro h
    simp [preprocess_image, h]
  · intro img h
    simp [preprocess_image, h]
  · intro out hout row hrow v hv
    unfold preprocess_image at hout
    cases himg : imread path with
    | none => rw [himg] at hout; exact absurd hout (by simp)
    | some img =>
        rw [himg] at hout
        injection hout with hout
        rw [← hout] at hrow
        obtain ⟨row₀, _, hrow₀⟩ := List.mem_map.mp hrow
        rw [← hrow₀] at hv
        obtain ⟨v₀, _, hv₀⟩ := List.mem_map.mp hv
        rw [← hv₀]
        exact preprocessPixel_le_one v₀
  · intro imread₂ path₂ heq hne
    unfold preprocess_image
    cases himg : imread path with
    | none => exact absurd himg hne
    | some img =>
        rw [heq] at himg
        rw [himg]

/-- Witness for C7: a concrete one-pixel image decodes, is preprocessed
to the value 1 (inside [0,1]), and the bound holds for it. -/
theorem preprocess_image_spec_witness :
    preprocess_image imreadW resizeW "item.jpg" = Except.ok [[1]] ∧
    (∀ row ∈ [[(1 : ℕ)]], ∀ v ∈ row, v ≤ 1) := by
  have hmap : List.map (fun row => List.map preprocessPixel row)
      (resizeW img_size [[(200 : Fin 256)]]) = [[1]] := by
    simp [resizeW, preprocessPixel_200]
  have h := (preprocess_image_spec imreadW resizeW "item.jpg").2.1
      [[(200 : Fin 256)]] rfl
  rw [hmap] at h
  exact ⟨h, (preprocess_image_spec imreadW resizeW "item.jpg").2.2.1 [[1]] h⟩

/-- Batteries' executable `Rat.floor` is Mathlib's `⌊·⌋`. -/
theorem ratFloor_eq_floor (q : ℚ) : Rat.floor q = ⌊q⌋ := by
  rw [Rat.floor_def', ← Rat.floor_def]

/-- At the default ratio 0.8, the split bound is 40. -/
theorem splitIndexBound_eq : splitIndexBound (4/5) = 40 := by
  rw [splitIndexBound, pyInt, if_neg (by norm_num), ratFloor_eq_floor]
  rw [show (50 : ℚ) * (4/5) = 40 by norm_num]
  rw [show ((40 : ℚ)) = ((40 : ℤ) : ℚ) by norm_num]
  rw [Int.floor_intCast]

/-- `filterMap` with a guarded `some` is `map` after `filter`. -/
theorem filterMap_guard_some {α β : Type} (p : α → Prop) [DecidablePred p]
    (f : α → β) :
    ∀ l : List α, l.filterMap (fun a => if p a then some (f a) else none) =
      (l.filter (fun a => decide (p a))).map f := by
  intro l
  induction l with
  | nil => rfl
  | cons a t ih =>
      by_cases h : p a
      · simp [List.filterMap_cons, List.filter_cons, h, ih]
      · simp [List.filterMap_cons, List.filter_cons, h, ih]

/-- `filterMap` with a guarded `none` keeps the complement. -/
theorem filterMap_guard_none {α β : Type} (p : α → Prop) [DecidablePred p]
    (f : α → β) :
    ∀ l : List α, l.filterMap (fun a => if p a then none else some (f a)) =
      (l.filter (fun a => !decide (p a))).map f := by
  intro l
  induction l with
  | nil => rfl
  | cons a t ih =>
      by_cases h : p a
      · simp [List.filterMap_cons, List.filter_cons, h, ih]
      · simp [List.filterMap_cons, List.filter_cons, h, ih]

/-- Closed form of the train list at ratio 0.8: for each category in
order, the paths with indices 0..39 in order. -/
theorem train_closed_form :
    (prepare_training_data (4/5)).1 =
      PANTRY_ITEMS.flatMap (fun c => (List.range 40).map (toPath c)) := by
  unfold prepare_training_data
  simp only [splitIndexBound_eq]
  have h : ∀ c : String,
      (List.range 50).filterMap (fun i : ℕ =>
        if (i : ℤ) < 40 then some (toPath c i) else none) =
      (List.range 40).map (toPath c) := by
    intro c
    rw [filterMap_guard_some (fun i : ℕ => (i : ℤ) < 40) (toPath c)]
    rw [show (List.range 50).filter (fun i : ℕ => decide ((i : ℤ) < 40)) =
        List.range 40 from by decide]
  simp only [h]

/-- Closed form of the validation list at ratio 0.8: for each category
in order, the paths with indices 40..49 in order. -/
theorem val_closed_form :
    (prepare_training_data (4/5)).2 =
      PANTRY_ITEMS.flatMap (fun c => (List.range' 40 10).map (toPath c)) := by
  unfold prepare_training_data
  simp only [splitIndexBound_eq]
  have h : ∀ c : String,
      (List.range 50).filterMap (fun i : ℕ =>
        if (i : ℤ) < 40 then none else some (toPath c i)) =
      (List.range' 40 10).map (toPath c) := by
    intro c
    rw [filterMap_guard_none (fun i : ℕ => (i : ℤ) < 40) (toPath c)]
    rw [show (List.range 50).filter (fun i : ℕ => !decide ((i : ℤ) < 40)) =
        List.range' 40 10 from by decide]
  simp only [h]

/-- The train list at ratio 0.8 has 600 entries. -/
theorem train_length : (prepare_training_data (4/5)).1.length = 600 := by
  rw [train_closed_form, List.length_flatMap]
  decide

/-- The validation list at ratio 0.8 has 150 entries. -/
theorem val_length : (prepare_training_data (4/5)).2.length = 150 := by
  rw [val_closed_form, List.length_flatMap]
  decide

/-- `List.isPrefixOf` agrees with the `<+:` relation on `List Char`. -/
theorem isPrefixOf_eq_true_iff {l₁ l₂ : List Char} :
    l₁.isPrefixOf l₂ = true ↔ l₁ <+: l₂ :=
  List.isPrefixOf_iff_prefix

/-- The character data of a generated path, split after the category
directory's trailing slash. -/
theorem data_toPath (c : String) (i : ℕ) :
    (toPath c i).data =
      pathPre c ++ (c.data ++ ("_".data ++ ((pad4 i).data ++ ".jpg".data))) := by
  simp [toPath, pathPre, catDir, String.data_append, List.append_assoc]

/-- Every generated path of category `c` starts with that category's
directory characters. -/
theorem pathPre_isPre (c : String) (i : ℕ) : pathPre c <+: (toPath c i).data :=
  ⟨c.data ++ ("_".data ++ ((pad4 i).data ++ ".jpg".data)), (data_toPath c i).symm⟩

/-- No category directory of the fixed 15-item set is a character
prefix of another's. -/
theorem noPrePairs :
    ∀ a ∈ PANTRY_ITEMS, ∀ b ∈ PANTRY_ITEMS, a ≠ b →
      (pathPre a).isPrefixOf (pathPre b) = false := by
  decide

/-- For distinct categories of the fixed set, the directory characters
of one never start a path of the other. -/
theorem not_pathPre_toPath {a b : String} (ha : a ∈ PANTRY_ITEMS)
    (hb : b ∈ PANTRY_ITEMS) (hne : a ≠ b) (i : ℕ) :
    (pathPre a).isPrefixOf (toPath b i).data = false := by
  cases hcase : (pathPre a).isPrefixOf (toPath b i).data
  · rfl
  · exfalso
    have hpre := isPrefixOf_eq_true_iff.mp hcase
    have hb2 := pathPre_isPre b i
    rcases List.prefix_or_prefix_of_prefix hpre hb2 with h' | h'
    · have ht := isPrefixOf_eq_true_iff.mpr h'
      rw [noPrePairs a ha b hb hne] at ht
      simp at ht
    · have ht := isPrefixOf_eq_true_iff.mpr h'
      rw [noPrePairs b hb a ha hne.symm] at ht
      simp at ht

/-- `Nat.digitChar` is injective on decimal digits. -/
theorem digitChar_inj10 :
    ∀ a < 10, ∀ b < 10, Nat.digitChar a = Nat.digitChar b → a = b := by
  decide

/-- The zero-padded four-digit rendering is injective below 10000. -/
theorem pad4_inj {i j : ℕ} (hi : i < 10000) (hj : j < 10000)
    (h : pad4 i = pad4 j) : i = j := by
  have hd := congrArg String.data h
  simp only [pad4, List.cons.injEq, and_true] at hd
  obtain ⟨h1, h2, h3, h4⟩ := hd
  have e1 := digitChar_inj10 _ (Nat.mod_lt _ (by norm_num)) _
    (Nat.mod_lt _ (by norm_num)) h1
  have e2 := digitChar_inj10 _ (Nat.mod_lt _ (by norm_num)) _
    (Nat.mod_lt _ (by norm_num)) h2
  have e3 := digitChar_inj10 _ (Nat.mod_lt _ (by norm_num)) _
    (Nat.mod_lt _ (by norm_num)) h3
  have e4 := digitChar_inj10 _ (Nat.mod_lt _ (by norm_num)) _
    (Nat.mod_lt _ (by norm_num)) h4
  omega

/-- Generated paths are injective over the fixed category set and
indices below 10000: equal path strings force equal category and equal
index. -/
theorem toPath_inj {a b : String} {i j : ℕ} (ha : a ∈ PANTRY_ITEMS)
    (hb : b ∈ PANTRY_ITEMS) (hi : i < 10000) (hj : j < 10000)
    (h : toPath a i = toPath b j) : a = b ∧ i = j := by
  have hpa := pathPre_isPre a i
  rw [h] at hpa
  have hab : a = b := by
    by_contra hne
    have ht := isPrefixOf_eq_true_iff.mpr hpa
    rw [not_pathPre_toPath ha hb hne j] at ht
    simp at ht
  subst hab
  refine ⟨rfl, ?_⟩
  have hd := congrArg String.data h
  rw [data_toPath, data_toPath] at hd
  have h1 := List.append_cancel_left hd
  have h2 := List.append_cancel_left h1
  have h3 := List.append_cancel_left h2
  have h4 := List.append_cancel_right h3
  exact pad4_inj hi hj (String.ext h4)

/-- Membership in the train list: exactly the paths of a category of the
fixed set whose index is below the split bound. -/
theorem mem_train_iff (r : ℚ) (a : String) :
    a ∈ (prepare_training_data r).1 ↔
      ∃ c ∈ PANTRY_ITEMS, ∃ i : ℕ, i < 50 ∧
        (i : ℤ) < splitIndexBound r ∧ a = toPath c i := by
  simp only [prepare_training_data, List.mem_flatMap, List.mem_filterMap,
    List.mem_range, Option.ite_none_right_eq_some, Option.some.injEq]
  constructor
  · rintro ⟨c, hc, i, hi, hcond, heq⟩
    exact ⟨c, hc, i, hi, hcond, heq.symm⟩
  · rintro ⟨c, hc, i, hi, hcond, heq⟩
    exact ⟨c, hc, i, hi, hcond, heq.symm⟩

/-- Membership in the validation list: exactly the paths of a category
of the fixed set whose index is at or above the split bound. -/
theorem mem_val_iff (r : ℚ) (a : String) :
    a ∈ (prepare_training_data r).2 ↔
      ∃ c ∈ PANTRY_ITEMS, ∃ i : ℕ, i < 50 ∧
        ¬((i : ℤ) < splitIndexBound r) ∧ a = toPath c i := by
  simp only [prepare_training_data, List.mem_flatMap, List.mem_filterMap,
    List.mem_range, Option.ite_none_left_eq_some, Option.some.injEq]
  constructor
  · rintro ⟨c, hc, i, hi, hcond, heq⟩
    exact ⟨c, hc, i, hi, hcond, heq.symm⟩
  · rintro ⟨c, hc, i, hi, hcond, heq⟩
    exact ⟨c, hc, i, hi, hcond, heq.symm⟩

/-- A category's directory characters match no path generated for the
categories of a list that does not involve it. -/
theorem countP_flatMap_zero (g : String → List ℕ) (c : String) :
    ∀ l : List String,
      (∀ b ∈ l, ∀ i : ℕ, (pathPre c).isPrefixOf (toPath b i).data = false) →
      (l.flatMap (fun b => (g b).map (toPath b))).countP
        (fun s => (pathPre c).isPrefixOf s.data) = 0 := by
  intro l
  induction l with
  | nil => intro _; rfl
  | cons b t ih =>
      intro H
      rw [List.flatMap_cons, List.countP_append]
      have hblock : ((g b).map (toPath b)).countP
          (fun s => (pathPre c).isPrefixOf s.data) = 0 := by
        rw [List.countP_eq_zero]
        intro s hs
        obtain ⟨i, _, hi⟩ := List.mem_map.mp hs
        rw [← hi]
        simp only [H b (List.mem_cons_self b t) i]
        simp
      rw [hblock, ih (fun b' hb' i => H b' (List.mem_cons_of_mem b hb') i)]

/-- Counting paths that start with category `c`'s directory over the
per-category generated lists picks out exactly the block of `c`. -/
theorem countP_flatMap_single (g : String → List ℕ) (c : String) :
    ∀ l : List String, l.Nodup → c ∈ l →
      (∀ b ∈ l, b ≠ c → ∀ i : ℕ,
        (pathPre c).isPrefixOf (toPath b i).data = false) →
      (l.flatMap (fun b => (g b).map (toPath b))).countP
        (fun s => (pathPre c).isPrefixOf s.data) = (g c).length := by
  intro l
  induction l with
  | nil => intro _ hc; exact absurd hc (List.not_mem_nil c)
  | cons b t ih =>
      intro hnd hc H
      obtain ⟨hbt, hndt⟩ := List.nodup_cons.mp hnd
      rw [List.flatMap_cons, List.countP_append]
      rcases List.mem_cons.mp hc with hcb | hct
      · subst hcb
        have hblock : ((g c).map (toPath c)).countP
            (fun s => (pathPre c).isPrefixOf s.data) = ((g c).map (toPath c)).length := by
          rw [List.countP_eq_length]
          intro s hs
          obtain ⟨i, _, hi⟩ := List.mem_map.mp hs
          rw [← hi]
          exact isPrefixOf_eq_true_iff.mpr (pathPre_isPre c i)
        have htail : (t.flatMap (fun b => (g b).map (toPath b))).countP
            (fun s => (pathPre c).isPrefixOf s.data) = 0 := by
          apply countP_flatMap_zero
          intro b' hb' i
          exact H b' (List.mem_cons_of_mem c hb')
            (fun hbc => hbt (hbc ▸ hb')) i
        rw [hblock, htail, List.length_map, Nat.add_zero]
      · have hbc : b ≠ c := fun hbc => hbt (hbc ▸ hct)
        have hblock : ((g b).map (toPath b)).countP
            (fun s => (pathPre c).isPrefixOf s.data) = 0 := by
          rw [List.countP_eq_zero]
          intro s hs
          obtain ⟨i, _, hi⟩ := List.mem_map.mp hs
          rw [← hi]
          simp only [H b (List.mem_cons_self b t) hbc i]
          simp
        rw [hblock, Nat.zero_add]
        exact ih hndt hct (fun b' hb' hb'c i => H b' (List.mem_cons_of_mem b hb') hb'c i)

/-- Per-category train count at ratio 0.8: each fixed category
contributes exactly 40 train paths. -/
theorem train_count_per_category :
    ∀ c ∈ PANTRY_ITEMS,
      (prepare_training_data (4/5)).1.countP
        (fun s => (pathPre c).isPrefixOf s.data) = 40 := by
  intro c hc
  rw [train_closed_form]
  rw [countP_flatMap_single (fun _ => List.range 40) c PANTRY_ITEMS
      (by decide) hc
      (fun b hb hbc i => not_pathPre_toPath hc hb (fun h => hbc h.symm) i)]
  exact List.length_range 40

/-- Per-category validation count at ratio 0.8: each fixed category
contributes exactly 10 validation paths. -/
theorem val_count_per_category :
    ∀ c ∈ PANTRY_ITEMS,
      (prepare_training_data (4/5)).2.countP
        (fun s => (pathPre c).isPrefixOf s.data) = 10 := by
  intro c hc
  rw [val_closed_form]
  rw [countP_flatMap_single (fun _ => List.range' 40 10) c PANTRY_ITEMS
      (by decide) hc
      (fun b hb hbc i => not_pathPre_toPath hc hb (fun h => hbc h.symm) i)]
  exact List.length_range' 40 1 10

/-- Counterexample to C1 as stated: at ratio 0.8 the split does NOT have
480 train entries and 120 validation entries (and hence not 600 total);
the train list alone has 600 entries. -/
theorem prepare_split_claimed_totals_false :
    ¬((prepare_training_data (4/5)).1.length = 480 ∧
      (prepare_training_data (4/5)).2.length = 120) := by
  intro h
  obtain ⟨h1, _⟩ := h
  rw [train_length] at h1
  exact absurd h1 (by decide)

/-- Claim C1 (amended): at ratio 0.8 over the fixed 15-category set with
50 items per category, the split has 750 total entries, 600 train and
150 validation, 40 train and 10 validation entries per category,
assigned in category-then-index order with the first
`int(50*0.8) = 40` indices of each category going to train. -/
theorem prepare_split_amended :
    (prepare_training_data (4/5)).1 =
      PANTRY_ITEMS.flatMap (fun c => (List.range 40).map (toPath c)) ∧
    (prepare_training_data (4/5)).2 =
      PANTRY_ITEMS.flatMap (fun c => (List.range' 40 10).map (toPath c)) ∧
    (prepare_training_data (4/5)).1.length = 600 ∧
    (prepare_training_data (4/5)).2.length = 150 ∧
    (prepare_training_data (4/5)).1.length +
      (prepare_training_data (4/5)).2.length = 750 ∧
    splitIndexBound (4/5) = 40 ∧
    (∀ c ∈ PANTRY_ITEMS,
      (prepare_training_data (4/5)).1.countP
        (fun s => (pathPre c).isPrefixOf s.data) = 40 ∧
      (prepare_training_data (4/5)).2.countP
        (fun s => (pathPre c).isPrefixOf s.data) = 10) :=
  ⟨train_closed_form, val_closed_form, train_length, val_length,
   by rw [train_length, val_length],
   splitIndexBound_eq,
   fun c hc => ⟨train_count_per_category c hc, val_count_per_category c hc⟩⟩

/-- Witness for the amended C1 at the concrete category "flour". -/
theorem prepare_split_amended_witness :
    (prepare_training_data (4/5)).1.countP
      (fun s => (pathPre "flour").isPrefixOf s.data) = 40 ∧
    (prepare_training_data (4/5)).2.countP
      (fun s => (pathPre "flour").isPrefixOf s.data) = 10 :=
  prepare_split_amended.2.2.2.2.2.2 "flour" (by decide)

/-- Claim C9: for every ratio, the train and validation lists are
disjoint, and every synthesized path of every fixed category belongs to
one of the two lists (hence to exactly one). -/
theorem split_partition :
    ∀ r : ℚ,
      List.Disjoint (prepare_training_data r).1 (prepare_training_data r).2 ∧
      (∀ c ∈ PANTRY_ITEMS, ∀ i < 50,
        toPath c i ∈ (prepare_training_data r).1 ∨
        toPath c i ∈ (prepare_training_data r).2) := by
  intro r
  constructor
  · intro a ha hav
    rw [mem_train_iff] at ha
    rw [mem_val_iff] at hav
    obtain ⟨c, hc, i, hi50, hcond, rfl⟩ := ha
    obtain ⟨c', hc', j, hj50, hncond, heq⟩ := hav
    obtain ⟨hcc, hij⟩ := toPath_inj hc hc' (by omega) (by omega) heq
    rw [← hij] at hncond
    exact hncond hcond
  · intro c hc i hi
    by_cases h : (i : ℤ) < splitIndexBound r
    · left
      rw [mem_train_iff]
      exact ⟨c, hc, i, hi, h, rfl⟩
    · right
      rw [mem_val_iff]
      exact ⟨c, hc, i, hi, h, rfl⟩

/-- Witness for C9 at ratio 0.8, category "flour", index 3. -/
theorem split_partition_witness :
    toPath "flour" 3 ∈ (prepare_training_data (4/5)).1 ∨
    toPath "flour" 3 ∈ (prepare_training_data (4/5)).2 :=
  (split_partition (4/5)).2 "flour" (by decide) 3 (by decide)
